import Mathlib

/-!
Verification of the alert normalization, categorization and spatial
sensor-dispatch pipeline (imd_mqtt).

The Python sources are shallowly embedded as executable Lean definitions:

* `alert_categorizer.py` — `categorize_alert`, `get_topic_name`,
  `categorize_alerts_batch` over association-list dictionaries;
* `fetch_alerts.py` — `normalize_earthquake_alerts`, `convert_to_geojson`;
* `store_to_neondb.py` — `parse_timestamp`, `insert_features`
  (the cap_alerts table is a list of rows, upsert keyed by identifier);
* `sensor_status_listener.py` — `extract_sensor_data`, `on_message`
  (the sensor_status table is a list of rows);
* `sensor_alert_dispatcher.py` — `fetch_all_sensors`,
  `fetch_alerts_containing_point` (the PostGIS point-in-polygon
  primitive `ST_Contains` is an explicit function parameter, since the
  storage engine's geometry is an external collaborator).

Python strings are Lean `String`s; JSON scalar values are `JVal`;
floating point numbers are modeled as `Rat` (the pipeline only carries
coordinates around and compares them to zero, so exact rationals are a
faithful model of every behaviour the claims touch).
-/

/-! ### String helpers (Python `in`, `.lower()`, `.strip()`, `.split()[-1]`) -/

/-- Python substring test: `pat in hay` for character lists. -/
def occursIn (pat hay : List Char) : Bool :=
  (List.range (hay.length + 1)).any fun i =>
    decide ((hay.drop i).take pat.length = pat)

/-- Python substring test on strings: `pat in hay`. -/
def strIn (pat hay : String) : Bool := occursIn pat.data hay.data

/-- Python `str.lower()`.  Only ASCII letters change case; the Devanagari
keywords used by the categorizer have no case, as in CPython. -/
def pyLower (s : String) : String := ⟨s.data.map Char.toLower⟩

theorem occursIn_cons_nil (c : Char) (cs : List Char) :
    occursIn (c :: cs) [] = false := by
  simp [occursIn]

/-- Python `str.strip()` (whitespace trim at both ends). -/
def pyStrip (s : String) : String :=
  ⟨(((s.data.dropWhile Char.isWhitespace).reverse.dropWhile
      Char.isWhitespace).reverse)⟩

/-- Position list of the occurrences of `sep` inside `s` (start indices). -/
def occStarts (sep s : List Char) : List Nat :=
  (List.range (s.length + 1)).filter fun i =>
    decide ((s.drop i).take sep.length = sep)

/-- Python `s.split(sep)[-1]`: the suffix after the last occurrence of
`sep`, or the entire string when `sep` does not occur. -/
def afterLast (sep s : List Char) : List Char :=
  match (occStarts sep s).max? with
  | some i => s.drop (i + sep.length)
  | none => s

/-- `afterLast` on strings. -/
def strAfterLast (sep s : String) : String := ⟨afterLast sep.data s.data⟩

/-! ### `alert_categorizer.py` : `categorize_alert` -/

/-- Embedding of `categorize_alert(disaster_type, warning_message="")`
(`alert_categorizer.py:6-106`).  An absent `disaster_type` arrives as the
empty string (the Python falsy string case of `if not disaster_type`). -/
def categorize_alert (disaster_type : String) (warning_message : String := "") : String :=
  if disaster_type = "" then "other"
  else
    let dl := pyLower disaster_type
    let ml := pyLower warning_message
    if strIn "earthquake" dl || strIn "भूकंप" ml then "earthquake"
    else if strIn "tsunami" dl || strIn "सुनामी" ml then "tsunami"
    else if strIn "landslide" dl || strIn "land slide" dl || strIn "भूस्खलन" ml then "landslide"
    else if strIn "avalanche" dl || strIn "हिमस्खलन" ml then "avalanche"
    else if strIn "cyclone" dl || strIn "cyclonic" dl || strIn "चक्रवात" ml then "weather_cyclone"
    else if (["rainfall", "rain", "flood", "heavy rain", "extremely heavy rain"].any
              fun k => strIn k dl) ||
            (["बाढ़", "बारिश", "वर्षा"].any fun k => strIn k ml) then "rainfall_floods"
    else if (["thunderstorm", "thunder storm", "lightning", "thunder"].any
              fun k => strIn k dl) ||
            (["आंधी", "तड़ित", "बिजली", "गरज"].any fun k => strIn k ml) then "thunderstorm_lightning"
    else if strIn "hail" dl || strIn "ओला" ml || strIn "ओलावृष्टि" ml then "hailstorm"
    else if strIn "cloudburst" dl || strIn "cloud burst" dl || strIn "बादल फटना" ml then "cloud_burst"
    else if (["frost", "cold wave", "coldwave", "cold", "freeze"].any
              fun k => strIn k dl) ||
            (["शीत लहर", "पाला", "ठंड"].any fun k => strIn k ml) then "frost_cold_wave"
    else if strIn "drought" dl || strIn "सूखा" ml then "drought"
    else if (["pre fire", "pre-fire", "fire", "forest fire"].any fun k => strIn k dl) ||
            (["जंगल में आग", "आग", "forest fire"].any fun k => strIn k ml) then "pre_fire"
    else if strIn "pest" dl || strIn "कीट" ml then "pest_attack"
    else if (["heat", "hot"].any fun k => strIn k dl) || strIn "गर्मी की लहर" ml then "heat_wave"
    else if strIn "dust" dl || strIn "धूल" ml then "dust_storm"
    else "other"

/-- Embedding of `get_topic_name(alert_type, prefix="alerts")`
(`alert_categorizer.py:109-120`). -/
def get_topic_name (alert_type : String) (pfx : String := "alerts") : String :=
  pfx ++ "/" ++ alert_type

/-- The fixed enumeration of category tags the spec lists (§4.2). -/
def allCategories : List String :=
  ["earthquake", "tsunami", "landslide", "avalanche", "weather_cyclone",
   "rainfall_floods", "thunderstorm_lightning", "hailstorm", "cloud_burst",
   "frost_cold_wave", "drought", "pre_fire", "pest_attack", "heat_wave",
   "dust_storm", "other"]

/-- Modelled from the spec's words (§4.2, precedence list): a rule table,
one `(category, test)` pair per taxonomy entry, in the spec's order.  Used
only to compare with the source-derived `categorize_alert`. -/
def specRules : List (String × (String → String → Bool)) :=
  [("earthquake", fun dl ml => strIn "earthquake" dl || strIn "भूकंप" ml),
   ("tsunami", fun dl ml => strIn "tsunami" dl || strIn "सुनामी" ml),
   ("landslide", fun dl ml =>
      strIn "landslide" dl || strIn "land slide" dl || strIn "भूस्खलन" ml),
   ("avalanche", fun dl ml => strIn "avalanche" dl || strIn "हिमस्खलन" ml),
   ("weather_cyclone", fun dl ml =>
      strIn "cyclone" dl || strIn "cyclonic" dl || strIn "चक्रवात" ml),
   ("rainfall_floods", fun dl ml =>
      (["rainfall", "rain", "flood", "heavy rain", "extremely heavy rain"].any
        fun k => strIn k dl) || (["बाढ़", "बारिश", "वर्षा"].any fun k => strIn k ml)),
   ("thunderstorm_lightning", fun dl ml =>
      (["thunderstorm", "thunder storm", "lightning", "thunder"].any
        fun k => strIn k dl) || (["आंधी", "तड़ित", "बिजली", "गरज"].any fun k => strIn k ml)),
   ("hailstorm", fun dl ml => strIn "hail" dl || strIn "ओला" ml || strIn "ओलावृष्टि" ml),
   ("cloud_burst", fun dl ml =>
      strIn "cloudburst" dl || strIn "cloud burst" dl || strIn "बादल फटना" ml),
   ("frost_cold_wave", fun dl ml =>
      (["frost", "cold wave", "coldwave", "cold", "freeze"].any fun k => strIn k dl) ||
      (["शीत लहर", "पाला", "ठंड"].any fun k => strIn k ml)),
   ("drought", fun dl ml => strIn "drought" dl || strIn "सूखा" ml),
   ("pre_fire", fun dl ml =>
      (["pre fire", "pre-fire", "fire", "forest fire"].any fun k => strIn k dl) ||
      (["जंगल में आग", "आग", "forest fire"].any fun k => strIn k ml)),
   ("pest_attack", fun dl ml => strIn "pest" dl || strIn "कीट" ml),
   ("heat_wave", fun dl ml =>
      (["heat", "hot"].any fun k => strIn k dl) || strIn "गर्मी की लहर" ml),
   ("dust_storm", fun dl ml => strIn "dust" dl || strIn "धूल" ml)]

/-- First rule whose test fires wins; falls back to `"other"`. -/
def firstMatch (dl ml : String) : List (String × (String → String → Bool)) → String
  | [] => "other"
  | (tag, test) :: rest => if test dl ml then tag else firstMatch dl ml rest

/-- Modelled from the spec's words (§4.2): categorization as a first-match
scan over `specRules`, with the empty-`disaster_type` short circuit. -/
def categorizeSpecOrder (disaster_type warning_message : String) : String :=
  if disaster_type = "" then "other"
  else firstMatch (pyLower disaster_type) (pyLower warning_message) specRules

/-! ### `alert_categorizer.py` : `categorize_alerts_batch` -/

/-- A Python dict with string keys and string values, as an insertion-ordered
association list with unique keys (the only dicts the pipeline builds). -/
abbrev PyDict := List (String × String)

/-- Python `d.get(k, dflt)`: value of the (unique) matching key, else the
default. -/
def pyGet (d : PyDict) (k : String) (dflt : String := "") : String :=
  match d with
  | [] => dflt
  | p :: rest => if p.1 = k then p.2 else pyGet rest k dflt

/-- Python `d[k] = v` on a copy: replaces the value in place when the key
exists (keeping its position, as dicts do) and appends otherwise. -/
def pySet (d : PyDict) (k v : String) : PyDict :=
  if d.any fun p => p.1 = k then
    d.map fun p => if p.1 = k then (k, v) else p
  else d ++ [(k, v)]

/-- The category computed for one alert dict inside
`categorize_alerts_batch` (`alert_categorizer.py:136-139`). -/
def catOf (a : PyDict) : String :=
  categorize_alert (pyGet a "disaster_type") (pyGet a "warning_message")

/-- One step of the grouping loop: ensure the key's bucket exists, then
append (`alert_categorizer.py:141-148`). -/
def addToGroup (m : List (String × List PyDict)) (k : String) (v : PyDict) :
    List (String × List PyDict) :=
  if m.any fun p => p.1 = k then
    m.map fun p => if p.1 = k then (p.1, p.2 ++ [v]) else p
  else m ++ [(k, [v])]

/-- Embedding of `categorize_alerts_batch(alerts_data)`
(`alert_categorizer.py:123-150`); the result dict maps category tags to
lists of tagged alert copies, in first-seen key order. -/
def categorize_alerts_batch (alerts_data : List PyDict) :
    List (String × List PyDict) :=
  alerts_data.foldl
    (fun acc alert =>
      addToGroup acc (catOf alert) (pySet alert "alert_category" (catOf alert)))
    []

/-- Lookup of a bucket in the grouping dict (`categorized[alert_type]`). -/
def groupGet (m : List (String × List PyDict)) (k : String) :
    Option (List PyDict) :=
  match m with
  | [] => none
  | p :: rest => if p.1 = k then some p.2 else groupGet rest k

/-- The bucket `categorize_alerts_batch` should build for category `c`:
the input alerts of that category, in order, each tagged with the key. -/
def filtTag (l : List PyDict) (c : String) : List PyDict :=
  (l.filter fun a => catOf a = c).map fun a => pySet a "alert_category" c

/-- Total number of alerts across all buckets. -/
def totalLen (m : List (String × List PyDict)) : Nat :=
  (m.map fun p => p.2.length).sum

/-! ### Association-list lemmas for the grouping dict -/

theorem groupGet_eq_none_of_absent (m : List (String × List PyDict)) (k : String)
    (h : (m.any fun p => p.1 = k) = false) : groupGet m k = none := by
  induction m with
  | nil => rfl
  | cons q m ih =>
    simp only [List.any_cons, Bool.or_eq_false_iff, decide_eq_false_iff_not] at h
    simp [groupGet, h.1, ih (by simpa using h.2)]

theorem groupGet_map_ne (m : List (String × List PyDict)) (k c : String)
    (v : PyDict) (hck : c ≠ k) :
    groupGet (m.map fun p => if p.1 = k then (p.1, p.2 ++ [v]) else p) c =
      groupGet m c := by
  have hkc : ¬ k = c := fun h => hck h.symm
  induction m with
  | nil => rfl
  | cons q m ih =>
    by_cases hq : q.1 = k
    · have hqc : ¬ q.1 = c := by rw [hq]; exact hkc
      simp [groupGet, hq, hqc, hkc, ih]
    · by_cases hqc : q.1 = c
      · simp [groupGet, hq, hqc, hkc, hck]
      · simp [groupGet, hq, hqc, ih]

theorem groupGet_map_self (m : List (String × List PyDict)) (k : String)
    (v : PyDict) (h : (m.any fun p => p.1 = k) = true) :
    groupGet (m.map fun p => if p.1 = k then (p.1, p.2 ++ [v]) else p) k =
      some ((groupGet m k).getD [] ++ [v]) := by
  induction m with
  | nil => simp at h
  | cons q m ih =>
    by_cases hq : q.1 = k
    · simp [groupGet, hq]
    · simp only [List.any_cons, decide_eq_false hq, Bool.false_or] at h
      simp [groupGet, hq, ih h]

theorem groupGet_append_single (m : List (String × List PyDict)) (k c : String)
    (g : List PyDict) (hm : groupGet m c = none) :
    groupGet (m ++ [(k, g)]) c = if c = k then some g else none := by
  induction m with
  | nil =>
    by_cases hck : c = k
    · simp [groupGet, hck]
    · have hkc : ¬ k = c := fun h => hck h.symm
      simp [groupGet, hck, hkc]
  | cons q m ih =>
    by_cases hq : q.1 = c
    · simp [groupGet, hq] at hm
    · simp only [groupGet, hq, if_neg hq] at hm ⊢
      simp [List.cons_append, groupGet, hq, ih hm]

theorem groupGet_append_single_found (m : List (String × List PyDict))
    (k c : String) (g b : List PyDict) (hm : groupGet m c = some b) :
    groupGet (m ++ [(k, g)]) c = some b := by
  induction m with
  | nil => simp [groupGet] at hm
  | cons q m ih =>
    by_cases hq : q.1 = c
    · simp only [groupGet, hq, if_pos hq] at hm ⊢
      simpa using hm
    · simp only [groupGet, hq, if_neg hq] at hm ⊢
      simp [List.cons_append, groupGet, hq, ih hm]

theorem groupGet_addToGroup (m : List (String × List PyDict)) (k c : String)
    (v : PyDict) :
    groupGet (addToGroup m k v) c =
      if c = k then some ((groupGet m k).getD [] ++ [v])
      else groupGet m c := by
  by_cases hp : (m.any fun p => p.1 = k) = true
  · by_cases hck : c = k
    · subst hck
      simp [addToGroup, hp, groupGet_map_self m c v hp]
    · simp [addToGroup, hp, groupGet_map_ne m k c v hck, hck]
  · have hp' : (m.any fun p => p.1 = k) = false := by
      revert hp; cases m.any fun p => p.1 = k <;> simp
    have habs := groupGet_eq_none_of_absent m k hp'
    rw [addToGroup, if_neg (by simp [hp'])]
    by_cases hck : c = k
    · have habs' : groupGet m c = none := by rw [hck]; exact habs
      rw [groupGet_append_single m k c [v] habs']
      simp [hck, habs]
    · cases hgc : groupGet m c with
      | none => rw [groupGet_append_single m k c [v] hgc]; simp [hck]
      | some b => rw [groupGet_append_single_found m k c [v] b hgc]; simp [hck]

/-- One grouping-loop step (as folded by `categorize_alerts_batch`). -/
def batchStep (acc : List (String × List PyDict)) (alert : PyDict) :
    List (String × List PyDict) :=
  addToGroup acc (catOf alert) (pySet alert "alert_category" (catOf alert))

theorem categorize_alerts_batch_eq_foldl (l : List PyDict) :
    categorize_alerts_batch l = l.foldl batchStep [] := rfl

theorem groupGet_foldl (l : List PyDict) (c : String) :
    ∀ acc : List (String × List PyDict),
      groupGet (l.foldl batchStep acc) c =
        match groupGet acc c, filtTag l c with
        | none, [] => none
        | none, f => some f
        | some g, f => some (g ++ f) := by
  induction l with
  | nil =>
    intro acc
    cases h : groupGet acc c <;> simp [filtTag, h]
  | cons a l ih =>
    intro acc
    rw [List.foldl_cons, ih (batchStep acc a)]
    have hstep : groupGet (batchStep acc a) c =
        if c = catOf a then some ((groupGet acc c).getD [] ++
          [pySet a "alert_category" (catOf a)])
        else groupGet acc c := by
      rw [batchStep, groupGet_addToGroup]
      by_cases hc : c = catOf a
      · subst hc; simp
      · simp [hc]
    by_cases hc : c = catOf a
    · have hfa : filtTag (a :: l) c =
          pySet a "alert_category" c :: filtTag l c := by
        simp [filtTag, hc.symm]
      rw [hstep, if_pos hc, hfa, ← hc]
      cases hacc : groupGet acc c <;> simp [hacc]
    · have hfa : filtTag (a :: l) c = filtTag l c := by
        have : ¬ catOf a = c := fun h => hc h.symm
        simp [filtTag, this]
      rw [hstep, if_neg hc, hfa]

theorem map_fst_bucket_map (m : List (String × List PyDict)) (k : String)
    (v : PyDict) :
    (m.map fun p => if p.1 = k then (p.1, p.2 ++ [v]) else p).map Prod.fst =
      m.map Prod.fst := by
  induction m with
  | nil => rfl
  | cons q m ih => by_cases hq : q.1 = k <;> simp [hq, ih]

theorem not_mem_keys_of_any_false (m : List (String × List PyDict))
    (k : String) (h : (m.any fun p => p.1 = k) = false) :
    k ∉ m.map Prod.fst := by
  intro hk
  rcases List.mem_map.mp hk with ⟨p, hp, hpk⟩
  have : (m.any fun p => p.1 = k) = true :=
    List.any_eq_true.mpr ⟨p, hp, decide_eq_true hpk⟩
  rw [h] at this
  exact Bool.false_ne_true this

theorem addToGroup_keys_nodup (m : List (String × List PyDict)) (k : String)
    (v : PyDict) (h : (m.map Prod.fst).Nodup) :
    ((addToGroup m k v).map Prod.fst).Nodup := by
  by_cases hp : (m.any fun p => p.1 = k) = true
  · rw [addToGroup, if_pos hp, map_fst_bucket_map]; exact h
  · have hp' : (m.any fun p => p.1 = k) = false := by
      revert hp; cases m.any fun p => p.1 = k <;> simp
    rw [addToGroup, if_neg (by simp [hp'])]
    rw [List.map_append]
    rw [List.nodup_append]
    exact ⟨h, List.nodup_singleton k, by
      intro x hx hx'
      simp only [List.map_cons, List.map_nil, List.mem_singleton] at hx'
      subst hx'
      exact not_mem_keys_of_any_false m x hp' hx⟩

theorem bucket_map_untouched (m : List (String × List PyDict)) (k : String)
    (v : PyDict) (h : k ∉ m.map Prod.fst) :
    m.map (fun p => if p.1 = k then (p.1, p.2 ++ [v]) else p) = m := by
  induction m with
  | nil => rfl
  | cons q m ih =>
    simp only [List.map_cons, List.mem_cons, not_or] at h ⊢
    have hq : ¬ q.1 = k := fun hh => h.1 hh.symm
    rw [if_neg hq, ih h.2]

theorem totalLen_bucket_map (m : List (String × List PyDict)) (k : String)
    (v : PyDict) (hp : (m.any fun p => p.1 = k) = true)
    (hnd : (m.map Prod.fst).Nodup) :
    totalLen (m.map fun p => if p.1 = k then (p.1, p.2 ++ [v]) else p) =
      totalLen m + 1 := by
  induction m with
  | nil => simp at hp
  | cons q m ih =>
    simp only [List.map_cons, List.nodup_cons] at hnd
    by_cases hq : q.1 = k
    · have hknot : k ∉ m.map Prod.fst := hq ▸ hnd.1
      simp only [List.map_cons, if_pos hq]
      rw [bucket_map_untouched m k v hknot]
      simp only [totalLen, List.map_cons, List.sum_cons, List.length_append,
        List.length_cons, List.length_nil]
      omega
    · simp only [List.any_cons, decide_eq_false hq, Bool.false_or] at hp
      simp only [List.map_cons, if_neg hq]
      have hrec := ih hp hnd.2
      simp only [totalLen, List.map_cons, List.sum_cons] at hrec ⊢
      omega

theorem totalLen_append_single (m : List (String × List PyDict)) (k : String)
    (v : PyDict) : totalLen (m ++ [(k, [v])]) = totalLen m + 1 := by
  simp [totalLen]

theorem totalLen_addToGroup (m : List (String × List PyDict)) (k : String)
    (v : PyDict) (hnd : (m.map Prod.fst).Nodup) :
    totalLen (addToGroup m k v) = totalLen m + 1 := by
  by_cases hp : (m.any fun p => p.1 = k) = true
  · rw [addToGroup, if_pos hp]; exact totalLen_bucket_map m k v hp hnd
  · rw [addToGroup, if_neg hp]; exact totalLen_append_single m k v

theorem batchStep_keys_nodup (acc : List (String × List PyDict)) (a : PyDict)
    (h : (acc.map Prod.fst).Nodup) : ((batchStep acc a).map Prod.fst).Nodup :=
  addToGroup_keys_nodup _ _ _ h

theorem totalLen_batchStep (acc : List (String × List PyDict)) (a : PyDict)
    (h : (acc.map Prod.fst).Nodup) :
    totalLen (batchStep acc a) = totalLen acc + 1 :=
  totalLen_addToGroup _ _ _ h

theorem batch_foldl_keys_nodup (l : List PyDict) :
    ∀ acc, (acc.map Prod.fst).Nodup →
      ((l.foldl batchStep acc).map Prod.fst).Nodup := by
  induction l with
  | nil => intro acc h; exact h
  | cons a l ih =>
    intro acc h
    rw [List.foldl_cons]
    exact ih _ (batchStep_keys_nodup acc a h)

theorem batch_foldl_totalLen (l : List PyDict) :
    ∀ acc, (acc.map Prod.fst).Nodup →
      totalLen (l.foldl batchStep acc) = totalLen acc + l.length := by
  induction l with
  | nil => intro acc _; simp
  | cons a l ih =>
    intro acc h
    rw [List.foldl_cons, ih (batchStep acc a) (batchStep_keys_nodup acc a h)]
    rw [totalLen_batchStep acc a h]
    simp only [List.length_cons]
    omega

theorem pyGet_map_set_self (a : PyDict) (k v : String)
    (hp : (a.any fun p => p.1 = k) = true) :
    pyGet (a.map fun p => if p.1 = k then (k, v) else p) k = v := by
  induction a with
  | nil => simp at hp
  | cons q a ih =>
    by_cases hq : q.1 = k
    · simp [pyGet, hq]
    · simp only [List.any_cons, decide_eq_false hq, Bool.false_or] at hp
      simp [pyGet, hq, ih hp]

theorem pyGet_map_set_ne (a : PyDict) (k v k' dflt : String) (h : k' ≠ k) :
    pyGet (a.map fun p => if p.1 = k then (k, v) else p) k' dflt =
      pyGet a k' dflt := by
  have hkk : ¬ k = k' := fun hh => h hh.symm
  induction a with
  | nil => rfl
  | cons q a ih =>
    by_cases hq : q.1 = k
    · have hq' : ¬ q.1 = k' := by rw [hq]; exact hkk
      simp [pyGet, hq, hq', hkk, ih]
    · by_cases hq' : q.1 = k'
      · simp [pyGet, hq, hq', h]
      · simp [pyGet, hq, hq', ih]

theorem pyGet_append_single_self (a : PyDict) (k v : String)
    (hp : (a.any fun p => p.1 = k) = false) :
    pyGet (a ++ [(k, v)]) k = v := by
  induction a with
  | nil => simp [pyGet]
  | cons q a ih =>
    simp only [List.any_cons, Bool.or_eq_false_iff,
      decide_eq_false_iff_not] at hp
    have hq : ¬ q.1 = k := hp.1
    simp only [List.cons_append, pyGet, if_neg hq]
    exact ih hp.2

theorem pyGet_append_single_ne (a : PyDict) (k v k' dflt : String)
    (h : k' ≠ k) : pyGet (a ++ [(k, v)]) k' dflt = pyGet a k' dflt := by
  have hkk : ¬ k = k' := fun hh => h hh.symm
  induction a with
  | nil => simp [pyGet, hkk]
  | cons q a ih =>
    by_cases hq' : q.1 = k'
    · simp [pyGet, hq']
    · simp [pyGet, hq', ih]

theorem pyGet_pySet_self (a : PyDict) (k v : String) :
    pyGet (pySet a k v) k = v := by
  by_cases hp : (a.any fun p => p.1 = k) = true
  · rw [pySet, if_pos hp]; exact pyGet_map_set_self a k v hp
  · have hp' : (a.any fun p => p.1 = k) = false := by
      revert hp; cases a.any fun p => p.1 = k <;> simp
    rw [pySet, if_neg hp]; exact pyGet_append_single_self a k v hp'

theorem pyGet_pySet_ne (a : PyDict) (k v k' dflt : String) (h : k' ≠ k) :
    pyGet (pySet a k v) k' dflt = pyGet a k' dflt := by
  by_cases hp : (a.any fun p => p.1 = k) = true
  · rw [pySet, if_pos hp]; exact pyGet_map_set_ne a k v k' dflt h
  · rw [pySet, if_neg hp]; exact pyGet_append_single_ne a k v k' dflt h

/-- C5: the categorizer evaluates categories in the fixed precedence order
earthquake, tsunami, landslide, avalanche, weather_cyclone, rainfall_floods,
thunderstorm_lightning, hailstorm, cloud_burst, frost_cold_wave, drought,
pre_fire, pest_attack, heat_wave, dust_storm, else other, first match wins
(`categorize_alert` coincides with the spec-ordered rule scan
`categorizeSpecOrder` on all inputs); in particular any `disaster_type`
containing both the earthquake keyword and a rainfall keyword categorizes
as earthquake. -/
theorem claim_C5 :
    (∀ dt wm, categorize_alert dt wm = categorizeSpecOrder dt wm) ∧
    (∀ dt wm, strIn "earthquake" (pyLower dt) = true →
      (["rainfall", "rain", "flood", "heavy rain", "extremely heavy rain"].any
        fun k => strIn k (pyLower dt)) = true →
      categorize_alert dt wm = "earthquake") := by
  constructor
  · intro dt wm; rfl
  · intro dt wm h1 _h2
    have hne : ¬ dt = "" := by
      intro h; subst h
      rw [show pyLower "" = "" by decide] at h1
      rw [show strIn "earthquake" "" = false by decide] at h1
      exact Bool.false_ne_true h1
    simp only [categorize_alert, if_neg hne, h1, Bool.true_or, if_true]

/-- Witness for C5 at a concrete input containing both an earthquake and
a rainfall keyword. -/
theorem claim_C5_witness :
    strIn "earthquake" (pyLower "Earthquake with heavy rain") = true ∧
    (["rainfall", "rain", "flood", "heavy rain", "extremely heavy rain"].any
      fun k => strIn k (pyLower "Earthquake with heavy rain")) = true ∧
    categorize_alert "Earthquake with heavy rain" "" = "earthquake" :=
  ⟨by decide, by decide,
    claim_C5.2 "Earthquake with heavy rain" "" (by decide) (by decide)⟩

/-- C6: with an empty (or absent, which Python passes as falsy/empty)
`disaster_type`, categorize returns `"other"` for every warning message,
keyword-bearing or not. -/
theorem claim_C6 : ∀ wm, categorize_alert "" wm = "other" := fun _ => rfl

theorem iteMemList {c : Prop} [Decidable c] {a b : String} {S : List String}
    (ha : a ∈ S) (hb : b ∈ S) : (if c then a else b) ∈ S := by
  by_cases h : c
  · rw [if_pos h]; exact ha
  · rw [if_neg h]; exact hb

/-- C7: `categorize_alert` is a total Lean function (so it never raises),
and its result is always one of the sixteen enumerated category tags. -/
theorem claim_C7 : ∀ dt wm, categorize_alert dt wm ∈ allCategories := by
  intro dt wm
  simp only [categorize_alert]
  repeat' apply iteMemList
  all_goals decide

/-- C10: batch categorization partitions its input: the bucket for each
category `c` is exactly the input alerts whose categorization is `c`, in
order, each tagged; bucket keys are pairwise distinct (so each alert lands
in exactly one bucket); the bucket sizes sum to the input length; and the
tagged copy keeps every field other than `alert_category` unchanged while
its `alert_category` equals the bucket key. -/
theorem claim_C10 :
    (∀ l c, groupGet (categorize_alerts_batch l) c =
        if filtTag l c = [] then none else some (filtTag l c)) ∧
    (∀ l, ((categorize_alerts_batch l).map Prod.fst).Nodup) ∧
    (∀ l, totalLen (categorize_alerts_batch l) = l.length) ∧
    (∀ l c g, groupGet (categorize_alerts_batch l) c = some g →
        ∀ x ∈ g, pyGet x "alert_category" = c ∧
          categorize_alert (pyGet x "disaster_type")
            (pyGet x "warning_message") = c) ∧
    (∀ a k v, pyGet (pySet a k v) k = v) ∧
    (∀ a k v k' dflt, k' ≠ k → pyGet (pySet a k v) k' dflt = pyGet a k' dflt) := by
  have h1 : ∀ l c, groupGet (categorize_alerts_batch l) c =
      if filtTag l c = [] then none else some (filtTag l c) := by
    intro l c
    rw [categorize_alerts_batch_eq_foldl, groupGet_foldl l c []]
    cases hf : filtTag l c <;> simp [groupGet, hf]
  refine ⟨h1, ?_, ?_, ?_, pyGet_pySet_self, fun a k v k' dflt h => pyGet_pySet_ne a k v k' dflt h⟩
  · intro l
    rw [categorize_alerts_batch_eq_foldl]
    exact batch_foldl_keys_nodup l [] (by simp)
  · intro l
    rw [categorize_alerts_batch_eq_foldl]
    have := batch_foldl_totalLen l [] (by simp)
    simpa [totalLen] using this
  · intro l c g hg x hx
    rw [h1] at hg
    by_cases hf : filtTag l c = []
    · rw [if_pos hf] at hg; exact absurd hg (by simp)
    · rw [if_neg hf] at hg
      have hgf : g = filtTag l c := by
        injection hg with hh; exact hh.symm
      subst hgf
      rcases List.mem_map.mp hx with ⟨a, ha, rfl⟩
      have hcat : catOf a = c := of_decide_eq_true (List.mem_filter.mp ha).2
      constructor
      · exact pyGet_pySet_self a "alert_category" c
      · rw [pyGet_pySet_ne a "alert_category" c "disaster_type" "" (by decide),
          pyGet_pySet_ne a "alert_category" c "warning_message" "" (by decide)]
        exact hcat

/-- Witness for C10: a one-alert batch, evaluated concretely. -/
theorem claim_C10_witness :
    pyGet [("disaster_type", "Earthquake"), ("alert_category", "earthquake")]
      "alert_category" = "earthquake" ∧
    pyGet (pySet [("disaster_type", "Earthquake")] "alert_category" "x")
      "disaster_type" = "Earthquake" := by
  constructor
  · exact (claim_C10.2.2.2.1 [[("disaster_type", "Earthquake")]] "earthquake"
      [[("disaster_type", "Earthquake"), ("alert_category", "earthquake")]]
      (by decide)
      [("disaster_type", "Earthquake"), ("alert_category", "earthquake")]
      (by decide)).1
  · rw [claim_C10.2.2.2.2.2 [("disaster_type", "Earthquake")] "alert_category"
      "x" "disaster_type" "" (by decide)]
    decide

/-! ### `sensor_status_listener.py` : telemetry parsing and the registry -/

/-- A JSON scalar value, as the telemetry payload fields carry them.
Python floats are modeled as exact rationals; container-valued fields do
not occur in the telemetry the pipeline consumes. -/
inductive JVal where
  | jnull : JVal
  | jnum : Rat → JVal
  | jstr : String → JVal
  | jbool : Bool → JVal
deriving DecidableEq

open JVal

/-- Python truthiness of a JSON scalar (`None`, `0`, `0.0`, `""`, `False`
are falsy). -/
def pyTruthy : JVal → Bool
  | jnull => false
  | jnum q => decide (q ≠ 0)
  | jstr s => decide (s ≠ "")
  | jbool b => b

/-- Python `a or b`: the left operand when truthy, else the right. -/
def pyOr (a b : JVal) : JVal := if pyTruthy a then a else b

/-- A parsed telemetry payload: a JSON object with scalar fields. -/
abbrev Payload := List (String × JVal)

/-- Python `data.get(k)` (default `None`). -/
def dictGetJ (d : Payload) (k : String) : JVal :=
  match d with
  | [] => jnull
  | p :: rest => if p.1 = k then p.2 else dictGetJ rest k

/-- Digit-string to `Nat`, `none` when empty or non-digits are present. -/
def digitsToNat (cs : List Char) : Option Nat :=
  if cs = [] then none
  else if cs.all Char.isDigit then
    some (cs.foldl (fun n c => 10 * n + (c.toNat - '0'.toNat)) 0)
  else none

/-- Python `float(s)` on the simple decimal forms the telemetry uses
(optional sign, digits, optional fraction).  Anything else fails, which
the listener turns into the all-`None` extraction result. -/
def parseDec (s : String) : Option Rat :=
  let core : List Char → Option Rat := fun cs =>
    match cs.splitOn '.' with
    | [intpart] => (digitsToNat intpart).map fun n => (n : Rat)
    | [intpart, fracpart] =>
        match digitsToNat intpart, digitsToNat fracpart with
        | some n, some f =>
            some (mkRat (n * 10 ^ fracpart.length + f) (10 ^ fracpart.length))
        | _, _ => none
    | _ => none
  match s.data with
  | '-' :: rest => (core rest).map fun q => -q
  | cs => core cs

/-- Python `float(v)` on a JSON scalar; `none` models the raised
`TypeError`/`ValueError`. -/
def pyFloat : JVal → Option Rat
  | jnull => none
  | jnum q => some q
  | jstr s => parseDec s
  | jbool b => some (if b then 1 else 0)

/-- The `if latitude: latitude = float(latitude)` step of
`extract_sensor_data` (`sensor_status_listener.py:73-76`): truthy values
are coerced to float (possibly raising), falsy values pass unchanged. -/
def floatIfTruthy (v : JVal) : Option JVal :=
  if pyTruthy v then (pyFloat v).map jnum else some v

/-- Embedding of `extract_sensor_data(payload)`
(`sensor_status_listener.py:62-84`): alias chains via Python `or`, float
coercion of truthy coordinates, and the exception path that returns all
`None`. -/
def extract_sensor_data (d : Payload) : JVal × JVal × JVal :=
  let sid := pyOr (pyOr (dictGetJ d "id") (dictGetJ d "ID")) (dictGetJ d "sensor_id")
  let lat0 := pyOr (pyOr (dictGetJ d "Lat") (dictGetJ d "lat")) (dictGetJ d "latitude")
  let lon0 := pyOr (pyOr (dictGetJ d "Long") (dictGetJ d "long")) (dictGetJ d "longitude")
  match floatIfTruthy lat0, floatIfTruthy lon0 with
  | some la, some lo => (sid, la, lo)
  | _, _ => (jnull, jnull, jnull)

/-- A row of the `sensor_status` table. -/
structure SensorRow where
  sensor_id : JVal
  topic : String
  latitude : Option Rat
  longitude : Option Rat
  raw_data : Payload
  received_at : Nat
deriving DecidableEq

/-- Python `topic.split('/')[0] if '/' in topic else topic`
(`sensor_status_listener.py:92`). -/
def topicType (t : String) : String :=
  if strIn "/" t then ⟨t.data.takeWhile fun c => c ≠ '/'⟩ else t

/-- Numeric payload of a JSON scalar, when it is a number. -/
def ratOfJ : JVal → Option Rat
  | jnum q => some q
  | _ => none

/-- The storage condition of `on_message`
(`sensor_status_listener.py:142`): `if sensor_id and latitude and longitude`. -/
def storeCond (d : Payload) : Bool :=
  let e := extract_sensor_data d
  pyTruthy e.1 && pyTruthy e.2.1 && pyTruthy e.2.2

/-- Embedding of `on_message` (`sensor_status_listener.py:130-149`) acting
on the `sensor_status` table: a row is appended only when id, latitude and
longitude are all truthy; otherwise the event is dropped with a warning. -/
def on_message (table : List SensorRow) (topic : String) (d : Payload)
    (now : Nat) : List SensorRow :=
  if storeCond d then
    let e := extract_sensor_data d
    table ++ [{ sensor_id := e.1, topic := topicType topic,
                latitude := ratOfJ e.2.1, longitude := ratOfJ e.2.2,
                raw_data := d, received_at := now }]
  else table

/-- Row with the greatest `received_at` (the `DISTINCT ON … ORDER BY …
received_at DESC` representative; within one (sensor_id, topic) key the
table's unique constraint makes timestamps distinct). -/
def pickLatest (l : List SensorRow) : Option SensorRow :=
  l.foldl
    (fun acc r =>
      match acc with
      | none => some r
      | some b => if b.received_at < r.received_at then some r else some b)
    none

/-- Embedding of `fetch_all_sensors` (`sensor_alert_dispatcher.py:76-107`):
latest row per (sensor_id, topic) pair among rows that have both
coordinates.  The SQL orders the output by (sensor_id, topic); this model
returns groups in first-appearance order, which none of the verified
claims depend on. -/
def fetch_all_sensors (table : List SensorRow) : List SensorRow :=
  let geo := table.filter fun r => r.latitude.isSome && r.longitude.isSome
  let keys := (geo.map fun r => (r.sensor_id, r.topic)).dedup
  keys.filterMap fun k =>
    pickLatest (geo.filter fun r => (r.sensor_id, r.topic) = k)

theorem pickLatest_foldl_mem (l : List SensorRow) :
    ∀ (acc : Option SensorRow) (r : SensorRow),
      l.foldl
        (fun acc r =>
          match acc with
          | none => some r
          | some b => if b.received_at < r.received_at then some r else some b)
        acc = some r →
      acc = some r ∨ r ∈ l := by
  induction l with
  | nil => intro acc r h; exact Or.inl h
  | cons x l ih =>
    intro acc r h
    rw [List.foldl_cons] at h
    rcases ih _ r h with hstep | hmem
    · cases acc with
      | none =>
        simp only at hstep
        injection hstep with hh
        exact Or.inr (hh ▸ List.mem_cons_self x l)
      | some b =>
        simp only at hstep
        by_cases hb : b.received_at < x.received_at
        · rw [if_pos hb] at hstep
          injection hstep with hh
          exact Or.inr (hh ▸ List.mem_cons_self x l)
        · rw [if_neg hb] at hstep
          exact Or.inl hstep
    · exact Or.inr (List.mem_cons_of_mem x hmem)

theorem pickLatest_mem (l : List SensorRow) (r : SensorRow)
    (h : pickLatest l = some r) : r ∈ l := by
  rcases pickLatest_foldl_mem l none r h with hacc | hmem
  · exact absurd hacc (by simp)
  · exact hmem

/-- C8 counterexample: a telemetry event missing longitude — the claim
says it is still recorded in the registry for audit, but `on_message`
skips the insert entirely and the registry stays empty. -/
theorem claim_C8_counterexample :
    on_message [] "rainfall/status" [("id", jstr "s1"), ("Lat", jnum 5)] 0 =
      [] := by decide

/-- C8 (amended): an inbound telemetry event whose id, latitude or
longitude does not extract as truthy is not recorded at all (the registry
is unchanged, there is no audit row); independently, every row returned
by `fetch_all_sensors` has both coordinates present. -/
theorem claim_C8 :
    (∀ (table : List SensorRow) (t : String) (d : Payload) (now : Nat),
        storeCond d = false → on_message table t d now = table) ∧
    (∀ (table : List SensorRow) (r : SensorRow), r ∈ fetch_all_sensors table →
        r.latitude.isSome = true ∧ r.longitude.isSome = true) := by
  constructor
  · intro table t d now h
    simp [on_message, h]
  · intro table r hr
    simp only [fetch_all_sensors] at hr
    rcases List.mem_filterMap.mp hr with ⟨k, _, hpick⟩
    have hmem := pickLatest_mem _ r hpick
    have hfil := (List.mem_filter.mp hmem).1
    have hgeo := (List.mem_filter.mp hfil).2
    simp only [Bool.and_eq_true] at hgeo
    exact hgeo

/-- Witness for C8 at concrete inputs. -/
theorem claim_C8_witness :
    on_message [⟨jstr "x", "t", some 1, some 2, [], 0⟩] "rainfall/status"
        [("id", jstr "s1"), ("Lat", jnum 5)] 3 =
      [⟨jstr "x", "t", some 1, some 2, [], 0⟩] ∧
    (some (1 : Rat)).isSome = true :=
  ⟨claim_C8.1 [⟨jstr "x", "t", some 1, some 2, [], 0⟩] "rainfall/status"
      [("id", jstr "s1"), ("Lat", jnum 5)] 3 (by decide),
   (claim_C8.2 [⟨jstr "x", "t", some 1, some 2, [], 0⟩]
      ⟨jstr "x", "t", some 1, some 2, [], 0⟩ (by decide)).1⟩

/-- C9 counterexample: with `Lat = "0"` and a fallback alias `lat = "5"`,
the claim says extraction falls through to the next alias (yielding 5.0);
the code instead selects the truthy string `"0"`, coerces it to 0.0, and
then refuses to store the event. -/
theorem claim_C9_counterexample :
    extract_sensor_data [("id", jstr "s1"), ("Lat", jstr "0"),
        ("lat", jstr "5"), ("Long", jstr "10")] =
      (jstr "s1", jnum 0, jnum 10) ∧
    (jnum 0 : JVal) ≠ jnum 5 ∧
    on_message [] "rainfall/status" [("id", jstr "s1"), ("Lat", jstr "0"),
        ("lat", jstr "5"), ("Long", jstr "10")] 0 = [] := by decide

/-- C9 (amended): a falsy alias value (numeric 0, empty string, null)
falls through Python `or` to the next alias, and the numeric string "0"
does not — it is truthy, selected, and coerced to the float 0.0; in every
case an event whose extracted id, latitude or longitude is falsy (which
includes latitude/longitude exactly 0) is never stored, so a sensor on
the equator or prime meridian is never evaluated for matching. -/
theorem claim_C9 :
    (∀ v w, pyTruthy v = false → pyOr v w = w) ∧
    (pyTruthy (jnum 0) = false ∧ pyTruthy (jstr "") = false ∧
      pyTruthy (jstr "0") = true ∧ floatIfTruthy (jstr "0") = some (jnum 0)) ∧
    (∀ (table : List SensorRow) (t : String) (d : Payload) (now : Nat),
        (pyTruthy (extract_sensor_data d).1 = false ∨
         pyTruthy (extract_sensor_data d).2.1 = false ∨
         pyTruthy (extract_sensor_data d).2.2 = false) →
      on_message table t d now = table) := by
  refine ⟨?_, by decide, ?_⟩
  · intro v w h; simp [pyOr, h]
  · intro table t d now h
    have hc : storeCond d = false := by
      rcases h with h | h | h <;> simp [storeCond, h]
    simp [on_message, hc]

/-- Witness for C9 at concrete inputs: numeric zero latitude blocks the
store, and a falsy value falls through `or`. -/
theorem claim_C9_witness :
    pyOr (jnum 0) (jstr "5") = jstr "5" ∧
    on_message [] "t" [("id", jstr "s1"), ("Lat", jnum 0),
        ("Long", jnum 10)] 0 = [] :=
  ⟨claim_C9.1 (jnum 0) (jstr "5") (by decide),
   claim_C9.2.2 [] "t" [("id", jstr "s1"), ("Lat", jnum 0), ("Long", jnum 10)] 0
     (Or.inr (Or.inl (by decide)))⟩

/-! ### `fetch_alerts.py` : normalizer and GeoJSON conversion.
`G` is the opaque GeoJSON-geometry payload type (geometry is produced and
consumed by the PostGIS collaborator, never inspected by this code). -/

/-- One inline polygon of a seismic record (`polygons[]` entries). -/
structure EqPolygon (G : Type) where
  coordinates : Option G
  intensity : Option String
  color : Option String
  latitude : Option String
  longitude : Option String
  radius : Option String
  zone_name : Option String
deriving DecidableEq

/-- A raw upstream alert record (generic CAP dict, or a normalized seismic
record); `none` models an absent key, `earthquake_polygons = []` covers
both an absent and an empty (falsy either way) polygon list. -/
structure RawAlert (G : Type) where
  identifier : Option String
  severity : Option String
  effective_start_time : Option String
  effective_end_time : Option String
  disaster_type : Option String
  area_description : Option String
  severity_level : Option String
  typ : Option String
  actual_lang : Option String
  warning_message : Option String
  disseminated : Option String
  severity_color : Option String
  alert_id_sdma_autoinc : Option String
  centroid : Option String
  alert_source : Option String
  area_covered : Option String
  sender_org_id : Option String
  depth : Option String
  earthquake_polygons : List (EqPolygon G)
deriving DecidableEq

/-- A raw seismic feed record (`earthquake_data["alerts"]` entry). -/
structure EqRaw (G : Type) where
  effective_start_time : Option String
  warning_message : Option String
  depth : Option String
  polygons : List (EqPolygon G)
deriving DecidableEq

/-- The seismic feed envelope (`{"alerts": [...]}`). -/
structure EqData (G : Type) where
  alerts : List (EqRaw G)
deriving DecidableEq

/-- `.replace(' ', '-').replace(':', '-')` of `fetch_alerts.py:51`. -/
def sanitizeId (s : String) : String :=
  ⟨s.data.map fun c => if c = ' ' ∨ c = ':' then '-' else c⟩

/-- Normalization of one seismic record (`fetch_alerts.py:49-75`). -/
def normalizeOne {G : Type} (e : EqRaw G) : RawAlert G :=
  let wm := e.warning_message.getD ""
  { identifier :=
      some ("earthquake-" ++ sanitizeId (e.effective_start_time.getD "")),
    severity := some "Severe",
    effective_start_time := some (e.effective_start_time.getD ""),
    effective_end_time := some "",
    disaster_type := some "Earthquake",
    area_description :=
      some (if strIn "Location:" wm
            then pyStrip (strAfterLast "Location:" wm) else ""),
    severity_level := some "",
    typ := some "earthquake_cap",
    actual_lang := some "en-IN",
    warning_message := some wm,
    disseminated := some "",
    severity_color := some "#FF0000",
    alert_id_sdma_autoinc := some "",
    centroid := some "",
    alert_source := some "IMD",
    area_covered := some "",
    sender_org_id := some "",
    depth := some (e.depth.getD ""),
    earthquake_polygons := e.polygons }

/-- Embedding of `normalize_earthquake_alerts(earthquake_data)`
(`fetch_alerts.py:42-77`); `none` models a falsy/`alerts`-less feed. -/
def normalize_earthquake_alerts {G : Type} (d : Option (EqData G)) :
    List (RawAlert G) :=
  match d with
  | none => []
  | some data => data.alerts.map normalizeOne

/-- The feature properties dict built by `convert_to_geojson`
(`fetch_alerts.py:91-110` plus the per-branch extras).  The base dict has
no `feature_type`/extras; an empty-string `feature_type` placeholder is
never observed since every emitted feature overrides it. -/
structure FeatProps where
  identifier : String
  severity : String
  effective_start_time : String
  effective_end_time : String
  disaster_type : String
  area_description : String
  severity_level : String
  typ : String
  actual_lang : String
  warning_message : String
  disseminated : String
  severity_color : String
  alert_id_sdma_autoinc : String
  centroid : String
  alert_source : String
  area_covered : String
  sender_org_id : String
  depth : String
  feature_type : String
  alert_category : Option String
  intensity : Option String
  color : Option String
  latitude : Option String
  longitude : Option String
  radius : Option String
  zone_name : Option String
  polygon_area_covered : Option String
  min_lat : Option String
  max_lat : Option String
  min_long : Option String
  max_long : Option String
deriving DecidableEq

/-- One GeoJSON feature. -/
structure Feature (G : Type) where
  geometry : Option G
  properties : FeatProps
deriving DecidableEq

/-- The `area_json` value of a polygon-lookup response: JSON null, a
string that fails `json.loads`, or a (parsed or direct) geometry. -/
inductive AreaJsonVal (G : Type) where
  | nullVal : AreaJsonVal G
  | malformed : AreaJsonVal G
  | parsed : G → AreaJsonVal G
deriving DecidableEq

/-- A polygon-lookup response (`fetch_alert_polygon` result). -/
structure PolyData (G : Type) where
  area_json : Option (AreaJsonVal G)
  area_covered : Option String
  min_lat : Option String
  max_lat : Option String
  min_long : Option String
  max_long : Option String
deriving DecidableEq

/-- The base `properties` dict of `convert_to_geojson`
(`fetch_alerts.py:91-110`): every field defaulted to `""`. -/
def mkProps {G : Type} (alert : RawAlert G) : FeatProps :=
  { identifier := alert.identifier.getD "",
    severity := alert.severity.getD "",
    effective_start_time := alert.effective_start_time.getD "",
    effective_end_time := alert.effective_end_time.getD "",
    disaster_type := alert.disaster_type.getD "",
    area_description := alert.area_description.getD "",
    severity_level := alert.severity_level.getD "",
    typ := alert.typ.getD "",
    actual_lang := alert.actual_lang.getD "",
    warning_message := alert.warning_message.getD "",
    disseminated := alert.disseminated.getD "",
    severity_color := alert.severity_color.getD "",
    alert_id_sdma_autoinc := alert.alert_id_sdma_autoinc.getD "",
    centroid := alert.centroid.getD "",
    alert_source := alert.alert_source.getD "",
    area_covered := alert.area_covered.getD "",
    sender_org_id := alert.sender_org_id.getD "",
    depth := alert.depth.getD "",
    feature_type := "",
    alert_category := none,
    intensity := none, color := none, latitude := none, longitude := none,
    radius := none, zone_name := none,
    polygon_area_covered := none, min_lat := none, max_lat := none,
    min_long := none, max_long := none }

/-- The features one alert contributes (`fetch_alerts.py:86-189`): the
seismic branch emits one `earthquake_zone` feature per inline polygon;
the generic branch consults the polygon lookup and falls back to an
`alert_no_geometry` feature. -/
def alertFeatures {G : Type} (polygons_data : String → Option (PolyData G))
    (alert : RawAlert G) : List (Feature G) :=
  let identifier := alert.identifier.getD ""
  let props := mkProps alert
  match alert.earthquake_polygons with
  | poly :: polys =>
      (poly :: polys).map fun p =>
        { geometry := p.coordinates,
          properties := { props with
            feature_type := "earthquake_zone",
            intensity := some (p.intensity.getD ""),
            color := some (p.color.getD ""),
            latitude := some (p.latitude.getD ""),
            longitude := some (p.longitude.getD ""),
            radius := some (p.radius.getD ""),
            zone_name := some (p.zone_name.getD "") } }
  | [] =>
      let noGeom : Feature G :=
        { geometry := none,
          properties := { props with feature_type := "alert_no_geometry" } }
      match polygons_data identifier with
      | some pd =>
          match pd.area_json with
          | some AreaJsonVal.malformed => [noGeom]
          | some vj =>
              let geom : Option G :=
                match vj with
                | AreaJsonVal.parsed g => some g
                | _ => none
              [{ geometry := geom,
                 properties := { props with
                   feature_type := "alert_area",
                   polygon_area_covered := some (pd.area_covered.getD ""),
                   min_lat := some (pd.min_lat.getD ""),
                   max_lat := some (pd.max_lat.getD ""),
                   min_long := some (pd.min_long.getD ""),
                   max_long := some (pd.max_long.getD "") } }]
          | none => [noGeom]
      | none => [noGeom]

/-- The GeoJSON feature collection. -/
structure GeoJson (G : Type) where
  features : List (Feature G)
deriving DecidableEq

/-- Embedding of `convert_to_geojson(alerts_data, polygons_data)`
(`fetch_alerts.py:79-196`). -/
def convert_to_geojson {G : Type} (alerts_data : List (RawAlert G))
    (polygons_data : String → Option (PolyData G)) : GeoJson G :=
  { features := alerts_data.flatMap (alertFeatures polygons_data) }

/-! ### `store_to_neondb.py` : timestamp parsing and `insert_features` -/

/-- `%b` month abbreviations of `strptime` (C locale). -/
def monthNum (m : String) : Option Nat :=
  match m with
  | "Jan" => some 1 | "Feb" => some 2 | "Mar" => some 3 | "Apr" => some 4
  | "May" => some 5 | "Jun" => some 6 | "Jul" => some 7 | "Aug" => some 8
  | "Sep" => some 9 | "Oct" => some 10 | "Nov" => some 11 | "Dec" => some 12
  | _ => none

/-- Bounded numeric field of `strptime` (all digits, in range). -/
def timeField (s : List Char) (lo hi : Nat) : Option Nat :=
  match digitsToNat s with
  | some n => if lo ≤ n ∧ n ≤ hi then some n else none
  | none => none

/-- Splitting a character list at every separator, keeping empty pieces
(the building block of Python `str.split`). -/
def splitChars (p : Char → Bool) (cs : List Char) : List (List Char) :=
  cs.foldr
    (fun c acc =>
      if p c then [] :: acc
      else
        match acc with
        | [] => [[c]]
        | g :: gs => (c :: g) :: gs)
    [[]]

/-- Embedding of `parse_timestamp(time_str)` (`store_to_neondb.py:107-123`):
`time_str.split()` then `strptime(f"{p[1]} {p[2]} {p[3]} {p[5]}",
"%b %d %H:%M:%S %Y")`, every failure (short list — note the code checks
`len >= 5` but indexes `parts[5]`, so 5 tokens also fail —, bad month, bad
numbers) yielding `None`.  Timestamps are encoded as a single
lexicographically ordered integer. -/
def parse_timestamp (time_str : String) : Option Int :=
  if time_str = "" then none
  else
    let parts := (splitChars Char.isWhitespace time_str.data).filter
      fun piece => piece ≠ []
    match parts[1]?, parts[2]?, parts[3]?, parts[5]? with
    | some pmon, some pday, some ptime, some pyear =>
        (match monthNum ⟨pmon⟩, timeField pday 1 31,
               splitChars (fun c => c = ':') ptime,
               timeField pyear 0 9999 with
         | some mon, some day, [ph, pm, ps], some year =>
             match timeField ph 0 23, timeField pm 0 59, timeField ps 0 61 with
             | some h, some mi, some s =>
                 some ((((((year * 12 + mon) * 31 + day) * 24 + h) * 60
                   + mi) * 60 + s : Nat) : Int)
             | _, _, _ => none
         | _, _, _, _ => none)
    | _, _, _, _ => none

/-- A row of the `cap_alerts` table (the columns this pipeline reads and
writes; `identifier` is never NULL through `insert_features`, which always
supplies a string, possibly empty). -/
structure CapRow (G : Type) where
  identifier : String
  alert_category : Option String
  feature_type : Option String
  geometry : Option G
  severity : Option String
  effective_start_time : Option Int
  effective_end_time : Option Int
  disaster_type : Option String
  area_description : Option String
  warning_message : Option String
  properties : Option FeatProps
deriving DecidableEq

/-- The row the INSERT of `insert_features` builds from one feature
(`store_to_neondb.py:148-232`); `ST_GeomFromGeoJSON(NULL)` is NULL. -/
def rowOfFeature {G : Type} (f : Feature G) : CapRow G :=
  { identifier := f.properties.identifier,
    alert_category := f.properties.alert_category,
    feature_type := some f.properties.feature_type,
    geometry := f.geometry,
    severity := some f.properties.severity,
    effective_start_time := parse_timestamp f.properties.effective_start_time,
    effective_end_time := parse_timestamp f.properties.effective_end_time,
    disaster_type := some f.properties.disaster_type,
    area_description := some f.properties.area_description,
    warning_message := some f.properties.warning_message,
    properties := some f.properties }

/-- `INSERT … ON CONFLICT (identifier) DO UPDATE SET …`: replace the
(unique) row with the same identifier, else append. -/
def upsertRow {G : Type} (table : List (CapRow G)) (row : CapRow G) :
    List (CapRow G) :=
  if table.any fun r => r.identifier = row.identifier then
    table.map fun r => if r.identifier = row.identifier then row else r
  else table ++ [row]

/-- Embedding of the insert loop of `insert_features(conn, geojson_data)`
(`store_to_neondb.py:125-242`): upsert each feature in order.  Database
errors (the per-feature `except` path) have no model counterpart; every
upsert succeeds, so the skipped counter stays 0. -/
def insert_features {G : Type} (geojson_data : GeoJson G)
    (table : List (CapRow G)) : List (CapRow G) :=
  geojson_data.features.foldl (fun t f => upsertRow t (rowOfFeature f)) table

/-! ### `sensor_alert_dispatcher.py` : `fetch_alerts_containing_point` -/

/-- Postgres `ORDER BY effective_start_time DESC` comparison on a nullable
column (`NULLS FIRST`, the default for DESC). -/
def estDescLe (x y : Option Int) : Bool :=
  match x, y with
  | none, _ => true
  | some _, none => false
  | some a, some b => decide (b ≤ a)

/-- Strict lexicographic order on character lists (code-point order). -/
def lexLt : List Char → List Char → Bool
  | [], [] => false
  | [], _ :: _ => true
  | _ :: _, [] => false
  | a :: as, b :: bs =>
      if a < b then true
      else if b < a then false
      else lexLt as bs

/-- Strict code-point order on strings. -/
def strLt (s t : String) : Bool := lexLt s.data t.data

/-- Row comparison of `ORDER BY identifier, effective_start_time DESC`.
Identifier order is modeled by the code-point string order `strLt`; the
verified claims only rely on the output being grouped/ordered by
identifier, not on a specific collation. -/
def rowLe {G : Type} (a b : CapRow G) : Bool :=
  if a.identifier = b.identifier then
    estDescLe a.effective_start_time b.effective_start_time
  else strLt a.identifier b.identifier

/-- `rowLe` as a relation, for the sorting lemmas. -/
def RowLeP {G : Type} (a b : CapRow G) : Prop := rowLe a b = true

instance {G : Type} : DecidableRel (@RowLeP G) := fun a b =>
  inferInstanceAs (Decidable (rowLe a b = true))

/-- Fuelled keep-first-per-identifier scan (structural recursion so that
concrete instances reduce inside the kernel; the fuel is the list
length, which the filter never exceeds). -/
def dedupByKeyAux {G : Type} : Nat → List (CapRow G) → List (CapRow G)
  | 0, _ => []
  | _, [] => []
  | fuel + 1, x :: xs =>
      x :: dedupByKeyAux fuel (xs.filter fun y => y.identifier ≠ x.identifier)

/-- `DISTINCT ON (identifier)` over the sorted row list: keep the first
row of each identifier. -/
def dedupByKey {G : Type} (l : List (CapRow G)) : List (CapRow G) :=
  dedupByKeyAux l.length l

/-- Embedding of `fetch_alerts_containing_point(conn, lon, lat,
alert_categories=None)` (`sensor_alert_dispatcher.py:110-176`).  The SQL
is modeled over the row list: filter on non-NULL geometry, containment
(the PostGIS `ST_Contains` primitive is the `stContains` parameter) and —
only when the Python-truthy (non-empty) category list is given — on
category membership; then `DISTINCT ON (identifier) … ORDER BY identifier,
effective_start_time DESC`. -/
def fetch_alerts_containing_point {G : Type}
    (stContains : G → Rat → Rat → Bool) (table : List (CapRow G))
    (lon lat : Rat) (alert_categories : Option (List String)) :
    List (CapRow G) :=
  let baseCond : CapRow G → Bool := fun r =>
    match r.geometry with
    | some g => stContains g lon lat
    | none => false
  let sel :=
    match alert_categories with
    | some (c :: cs) =>
        table.filter fun r =>
          baseCond r && (c :: cs).any fun cat => r.alert_category = some cat
    | _ => table.filter baseCond
  dedupByKey (List.insertionSort RowLeP sel)

/-! ### Order lemmas for the dispatcher's sort -/

theorem lexLt_irrefl : ∀ cs : List Char, lexLt cs cs = false
  | [] => rfl
  | c :: cs => by simp [lexLt, lt_irrefl, lexLt_irrefl cs]

theorem lexLt_trans : ∀ (a b c : List Char), lexLt a b = true →
    lexLt b c = true → lexLt a c = true := by
  intro a
  induction a with
  | nil =>
    intro b c h1 h2
    cases b with
    | nil => simp [lexLt] at h1
    | cons y ys =>
      cases c with
      | nil => simp [lexLt] at h2
      | cons z zs => simp [lexLt]
  | cons x xs ih =>
    intro b c h1 h2
    cases b with
    | nil => simp [lexLt] at h1
    | cons y ys =>
      cases c with
      | nil => simp [lexLt] at h2
      | cons z zs =>
        simp only [lexLt] at h1 h2 ⊢
        by_cases hxy : x < y
        · by_cases hyz : y < z
          · simp [lt_trans hxy hyz]
          · by_cases hzy : z < y
            · simp [hyz, hzy] at h2
            · have hyzeq : y = z := le_antisymm (not_lt.mp hzy) (not_lt.mp hyz)
              simp [hyzeq ▸ hxy]
        · by_cases hyx : y < x
          · simp [hxy, hyx] at h1
          · have hxyeq : x = y := le_antisymm (not_lt.mp hyx) (not_lt.mp hxy)
            rw [if_neg hxy, if_neg hyx] at h1
            by_cases hyz : y < z
            · simp [hxyeq ▸ hyz]
            · by_cases hzy : z < y
              · simp [hyz, hzy] at h2
              · rw [if_neg hyz, if_neg hzy] at h2
                have hxz : ¬ x < z := hxyeq ▸ hyz
                have hzx : ¬ z < x := hxyeq ▸ hzy
                rw [if_neg hxz, if_neg hzx]
                exact ih ys zs h1 h2

theorem lexLt_connex : ∀ (a b : List Char), lexLt a b = false →
    lexLt b a = false → a = b := by
  intro a
  induction a with
  | nil =>
    intro b h1 _
    cases b with
    | nil => rfl
    | cons y ys => simp [lexLt] at h1
  | cons x xs ih =>
    intro b h1 h2
    cases b with
    | nil => simp [lexLt] at h2
    | cons y ys =>
      simp only [lexLt] at h1 h2
      by_cases hxy : x < y
      · simp [hxy] at h1
      · by_cases hyx : y < x
        · simp [hyx, hxy] at h2
        · have hxyeq : x = y := le_antisymm (not_lt.mp hyx) (not_lt.mp hxy)
          rw [if_neg hxy, if_neg hyx] at h1
          rw [if_neg hyx, if_neg hxy] at h2
          rw [hxyeq, ih ys h1 h2]

theorem strLt_trans (a b c : String) (h1 : strLt a b = true)
    (h2 : strLt b c = true) : strLt a c = true :=
  lexLt_trans a.data b.data c.data h1 h2

theorem strLt_asymm_ne (a b : String) (h : strLt a b = true) : a ≠ b := by
  intro he
  subst he
  rw [strLt, lexLt_irrefl] at h
  exact Bool.false_ne_true h

theorem strLt_of_ne (a b : String) (h : a ≠ b) :
    strLt a b = true ∨ strLt b a = true := by
  cases h1 : strLt a b with
  | true => exact Or.inl rfl
  | false =>
    cases h2 : strLt b a with
    | true => exact Or.inr rfl
    | false =>
      exfalso
      refine h ?_
      have hdata := lexLt_connex a.data b.data h1 h2
      cases a
      cases b
      cases hdata
      rfl

theorem estDescLe_total (x y : Option Int) :
    estDescLe x y = true ∨ estDescLe y x = true := by
  cases x with
  | none => exact Or.inl rfl
  | some a =>
    cases y with
    | none => exact Or.inr rfl
    | some b =>
      rcases Int.le_total b a with h | h
      · exact Or.inl (by simpa [estDescLe] using h)
      · exact Or.inr (by simpa [estDescLe] using h)

theorem estDescLe_trans (x y z : Option Int) (h1 : estDescLe x y = true)
    (h2 : estDescLe y z = true) : estDescLe x z = true := by
  cases x with
  | none => rfl
  | some a =>
    cases y with
    | none => simp [estDescLe] at h1
    | some b =>
      cases z with
      | none => simp [estDescLe] at h2
      | some c =>
        simp only [estDescLe, decide_eq_true_eq] at h1 h2 ⊢
        omega

instance {G : Type} : IsTrans (CapRow G) (@RowLeP G) := by
  constructor
  intro a b c h1 h2
  unfold RowLeP rowLe at h1 h2 ⊢
  by_cases hab : a.identifier = b.identifier <;>
    by_cases hbc : b.identifier = c.identifier
  · rw [if_pos hab] at h1
    rw [if_pos hbc] at h2
    rw [if_pos (hab.trans hbc)]
    exact estDescLe_trans _ _ _ h1 h2
  · rw [if_neg hbc] at h2
    have hac : ¬ a.identifier = c.identifier := fun h =>
      hbc (hab.symm.trans h)
    rw [if_neg hac, hab]
    exact h2
  · rw [if_neg hab] at h1
    have hac : ¬ a.identifier = c.identifier := fun h =>
      hab (h.trans hbc.symm)
    rw [if_neg hac, ← hbc]
    exact h1
  · rw [if_neg hab] at h1
    rw [if_neg hbc] at h2
    have hlt := strLt_trans _ _ _ h1 h2
    have hac : ¬ a.identifier = c.identifier := fun h =>
      strLt_asymm_ne _ _ hlt h
    rw [if_neg hac]
    exact hlt

instance {G : Type} : IsTotal (CapRow G) (@RowLeP G) := by
  constructor
  intro a b
  unfold RowLeP rowLe
  by_cases hab : a.identifier = b.identifier
  · rw [if_pos hab, if_pos hab.symm]
    exact estDescLe_total _ _
  · have hba : ¬ b.identifier = a.identifier := fun h => hab h.symm
    rw [if_neg hab, if_neg hba]
    exact strLt_of_ne _ _ hab

/-! ### `dedupByKey` lemmas -/

theorem dedupByKeyAux_sublist {G : Type} :
    ∀ (fuel : Nat) (l : List (CapRow G)), List.Sublist (dedupByKeyAux fuel l) l := by
  intro fuel
  induction fuel with
  | zero => intro l; cases l <;> exact List.nil_sublist _
  | succ fuel ih =>
    intro l
    cases l with
    | nil => exact List.Sublist.refl []
    | cons x xs =>
      exact List.Sublist.cons₂ x ((ih _).trans (List.filter_sublist xs))

theorem dedupByKeyAux_keys_ne {G : Type} :
    ∀ (fuel : Nat) (l : List (CapRow G)),
      (dedupByKeyAux fuel l).Pairwise fun a b =>
        a.identifier ≠ b.identifier := by
  intro fuel
  induction fuel with
  | zero => intro l; cases l <;> exact List.Pairwise.nil
  | succ fuel ih =>
    intro l
    cases l with
    | nil => exact List.Pairwise.nil
    | cons x xs =>
      refine List.Pairwise.cons ?_ (ih _)
      intro y hy
      have hyf := (dedupByKeyAux_sublist fuel _).subset hy
      have := (List.mem_filter.mp hyf).2
      have hne : y.identifier ≠ x.identifier := by simpa using this
      exact fun h => hne h.symm

theorem dedupByKeyAux_exists_key {G : Type} :
    ∀ (fuel : Nat) (l : List (CapRow G)), l.length ≤ fuel →
      ∀ r ∈ l, ∃ q ∈ dedupByKeyAux fuel l, q.identifier = r.identifier := by
  intro fuel
  induction fuel with
  | zero =>
    intro l hl r hr
    rw [Nat.le_zero, List.length_eq_zero] at hl
    subst hl
    exact absurd hr (List.not_mem_nil r)
  | succ fuel ih =>
    intro l hl r hr
    cases l with
    | nil => exact absurd hr (List.not_mem_nil r)
    | cons x xs =>
      rcases List.mem_cons.mp hr with hr1 | hrx
      · exact ⟨x, List.mem_cons_self _ _, by rw [hr1]⟩
      · by_cases hid : r.identifier = x.identifier
        · exact ⟨x, List.mem_cons_self _ _, hid.symm⟩
        · have hmem : r ∈ xs.filter fun y => y.identifier ≠ x.identifier :=
            List.mem_filter.mpr ⟨hrx, by simpa using hid⟩
          have hlen : (xs.filter fun y =>
              y.identifier ≠ x.identifier).length ≤ fuel :=
            le_trans (List.length_filter_le _ _)
              (Nat.le_of_succ_le_succ hl)
          rcases ih _ hlen r hmem with ⟨q, hq, hqid⟩
          exact ⟨q, List.mem_cons_of_mem x hq, hqid⟩

theorem dedupByKey_sublist {G : Type} (l : List (CapRow G)) :
    List.Sublist (dedupByKey l) l := dedupByKeyAux_sublist l.length l

theorem dedupByKey_keys_ne {G : Type} (l : List (CapRow G)) :
    (dedupByKey l).Pairwise fun a b => a.identifier ≠ b.identifier :=
  dedupByKeyAux_keys_ne l.length l

theorem dedupByKey_exists_key {G : Type} (l : List (CapRow G)) (r : CapRow G)
    (hr : r ∈ l) : ∃ q ∈ dedupByKey l, q.identifier = r.identifier :=
  dedupByKeyAux_exists_key l.length l (le_refl _) r hr

/-- Pairwise strict identifier order of a deduplicated sorted row list. -/
theorem fetch_pairwise_helper {G : Type} (l : List (CapRow G)) :
    ((dedupByKey (List.insertionSort RowLeP l)).map
        (fun r => r.identifier)).Pairwise
      (fun a b => strLt a b = true) := by
  have hsorted : (List.insertionSort RowLeP l).Pairwise RowLeP :=
    List.sorted_insertionSort RowLeP l
  have hsub := dedupByKey_sublist (List.insertionSort RowLeP l)
  have hpair : (dedupByKey (List.insertionSort RowLeP l)).Pairwise RowLeP :=
    hsorted.sublist hsub
  have hne := dedupByKey_keys_ne (List.insertionSort RowLeP l)
  have hcomb := hpair.and hne
  rw [List.pairwise_map]
  refine hcomb.imp ?_
  intro a b hab
  rcases hab with ⟨hle, hne'⟩
  unfold RowLeP rowLe at hle
  rw [if_neg hne'] at hle
  exact hle

/-- A one-row store instance for the C1 evaluation (geometry and
containment are trivial; the category is set). -/
def c1row : CapRow Unit :=
  { identifier := "X1", alert_category := some "rainfall_floods",
    feature_type := some "Feature", geometry := some (),
    severity := some "Severe", effective_start_time := none,
    effective_end_time := none, disaster_type := some "Rainfall",
    area_description := some "a", warning_message := some "m",
    properties := none }

/-- C1 counterexample: with an empty (zero-element) category list the
claim demands the empty sequence, but the Python truthiness test
`if alert_categories:` sends the empty list down the unfiltered branch,
so a matching alert of some category is returned. -/
theorem claim_C1_counterexample :
    fetch_alerts_containing_point (fun _ _ _ => true) [c1row] 0 0
      (some []) ≠ [] := by decide

/-- C1 (amended): a null/absent category filter matches any category, and
an empty (zero-element) category set behaves identically to the null
filter — it also matches any category, not the empty sequence.  The
result of the unfiltered query consists of alerts whose geometry contains
the point (soundness), and every such alert in the table is represented
in the result by its identifier (completeness up to identifier
deduplication). -/
theorem claim_C1 {G : Type} (stContains : G → Rat → Rat → Bool)
    (table : List (CapRow G)) (lon lat : Rat) :
    fetch_alerts_containing_point stContains table lon lat (some []) =
      fetch_alerts_containing_point stContains table lon lat none ∧
    (∀ r ∈ fetch_alerts_containing_point stContains table lon lat none,
      ∃ g, r.geometry = some g ∧ stContains g lon lat = true) ∧
    (∀ r ∈ table,
      (∃ g, r.geometry = some g ∧ stContains g lon lat = true) →
      ∃ q ∈ fetch_alerts_containing_point stContains table lon lat none,
        q.identifier = r.identifier) := by
  refine ⟨rfl, ?_, ?_⟩
  · intro r hr
    simp only [fetch_alerts_containing_point] at hr
    have h1 := (dedupByKey_sublist _).subset hr
    have h2 := (List.mem_insertionSort _).mp h1
    have h3 := (List.mem_filter.mp h2).2
    cases hg : r.geometry with
    | none => rw [hg] at h3; exact absurd h3 (by simp)
    | some g =>
      rw [hg] at h3
      exact ⟨g, rfl, h3⟩
  · intro r hr hcond
    rcases hcond with ⟨g, hg, hc⟩
    have hfil : r ∈ table.filter fun r =>
        match r.geometry with
        | some g => stContains g lon lat
        | none => false := by
      refine List.mem_filter.mpr ⟨hr, ?_⟩
      rw [hg]
      exact hc
    have hsort : r ∈ List.insertionSort RowLeP (table.filter fun r =>
        match r.geometry with
        | some g => stContains g lon lat
        | none => false) := (List.mem_insertionSort _).mpr hfil
    rcases dedupByKey_exists_key _ r hsort with ⟨q, hq, hqid⟩
    exact ⟨q, hq, hqid⟩

/-- Witness for C1 at a concrete one-row store. -/
theorem claim_C1_witness :
    ∃ q ∈ fetch_alerts_containing_point (fun _ _ _ => true) [c1row] 0 0 none,
      q.identifier = c1row.identifier :=
  (claim_C1 (fun _ _ _ => true) [c1row] 0 0).2.2 c1row (by decide)
    ⟨(), by decide, rfl⟩

/-- Adjacent most-recent-first check on the returned start times (the
ordering the claim asserts). -/
def recencySortedB : List (Option Int) → Bool
  | [] => true
  | [_] => true
  | x :: y :: rest => estDescLe x y && recencySortedB (y :: rest)

/-- Store rows for the C2 evaluation: identifier "a" is older than "b". -/
def c2rowA : CapRow Unit :=
  { c1row with identifier := "a", effective_start_time := some 1 }

/-- Second store row for the C2 evaluation. -/
def c2rowB : CapRow Unit :=
  { c1row with identifier := "b", effective_start_time := some 2 }

/-- C2 counterexample: the returned sequence is ordered by identifier
("a" before "b"), so the older alert (start time 1) precedes the newer
one (start time 2) — not most-recent-first as the claim states. -/
theorem claim_C2_counterexample :
    (fetch_alerts_containing_point (fun _ _ _ => true) [c2rowB, c2rowA]
        0 0 none).map (fun r => r.effective_start_time) =
      [some 1, some 2] ∧
    recencySortedB [some 1, some 2] = false := by decide

/-- C2 (amended): the containment query deduplicates by identifier — the
returned identifiers are strictly increasing in the modeled collation,
hence pairwise distinct (at most one alert per identifier) — and the
sequence is ordered by identifier, not by most recent
`effective_start_time` first. -/
theorem claim_C2 {G : Type} (stContains : G → Rat → Rat → Bool)
    (table : List (CapRow G)) (lon lat : Rat)
    (cats : Option (List String)) :
    ((fetch_alerts_containing_point stContains table lon lat cats).map
        (fun r => r.identifier)).Pairwise
      (fun a b => strLt a b = true) := by
  cases cats with
  | none => exact fetch_pairwise_helper _
  | some cs =>
    cases cs with
    | nil => exact fetch_pairwise_helper _
    | cons c cs => exact fetch_pairwise_helper _

/-! ### C3/C4 : missing-identifier records and the seismic scenario -/

theorem upsertRow_preserves_key {G : Type} (table : List (CapRow G))
    (row : CapRow G) (i : String) (h : ∃ r ∈ table, r.identifier = i) :
    ∃ r ∈ upsertRow table row, r.identifier = i := by
  rcases h with ⟨r, hr, hri⟩
  by_cases hp : (table.any fun s => s.identifier = row.identifier) = true
  · rw [upsertRow, if_pos hp]
    by_cases hrr : r.identifier = row.identifier
    · exact ⟨row, List.mem_map.mpr ⟨r, hr, by simp [hrr]⟩, hrr ▸ hri⟩
    · exact ⟨r, List.mem_map.mpr ⟨r, hr, by simp [hrr]⟩, hri⟩
  · rw [upsertRow, if_neg hp]
    exact ⟨r, List.mem_append_left _ hr, hri⟩

theorem upsertRow_mem_key {G : Type} (table : List (CapRow G))
    (row : CapRow G) :
    ∃ r ∈ upsertRow table row, r.identifier = row.identifier := by
  by_cases hp : (table.any fun s => s.identifier = row.identifier) = true
  · rw [upsertRow, if_pos hp]
    rcases List.any_eq_true.mp hp with ⟨s, hs, hsid⟩
    have hsid' := of_decide_eq_true hsid
    exact ⟨row, List.mem_map.mpr ⟨s, hs, by simp [hsid']⟩, rfl⟩
  · rw [upsertRow, if_neg hp]
    exact ⟨row, List.mem_append_right _ (List.mem_singleton.mpr rfl), rfl⟩

theorem insert_foldl_preserves_key {G : Type} :
    ∀ (fs : List (Feature G)) (table : List (CapRow G)) (i : String),
      (∃ r ∈ table, r.identifier = i) →
      ∃ r ∈ fs.foldl (fun t f => upsertRow t (rowOfFeature f)) table,
        r.identifier = i := by
  intro fs
  induction fs with
  | nil => intro table i h; exact h
  | cons f fs ih =>
    intro table i h
    rw [List.foldl_cons]
    exact ih _ i (upsertRow_preserves_key table (rowOfFeature f) i h)

/-- A generic record with no identifier (and no other fields), as the
concrete C3 batch element. -/
def noIdAlert : RawAlert Unit :=
  { identifier := none, severity := none, effective_start_time := none,
    effective_end_time := none, disaster_type := none,
    area_description := none, severity_level := none, typ := none,
    actual_lang := none, warning_message := none, disseminated := none,
    severity_color := none, alert_id_sdma_autoinc := none, centroid := none,
    alert_source := none, area_covered := none, sender_org_id := none,
    depth := none, earthquake_polygons := [] }

/-- C3 counterexample at a concrete batch: one generic record with no
identifier.  The claim says no row is created for it; in fact the
converter manufactures the empty-string identifier and the insert creates
exactly one row keyed by `""`. -/
theorem claim_C3_counterexample :
    (insert_features (convert_to_geojson [noIdAlert] fun _ => none)
        []).length = 1 ∧
    (insert_features (convert_to_geojson [noIdAlert] fun _ => none)
        []).map (fun r => r.identifier) = [""] := by decide

/-- C3 (amended): a generic (non-seismic) record lacking an identifier is
not skipped: its feature is emitted with the empty-string identifier and
no geometry, a row keyed by the empty string is upserted into the store
(so all identifier-less records collapse onto that one row), and the rest
of the batch is processed without raising (the embedding is total and
later upserts preserve the row). -/
theorem claim_C3 {G : Type} (a : RawAlert G) (rest : List (RawAlert G))
    (pdata : String → Option (PolyData G)) (table : List (CapRow G))
    (hid : a.identifier = none) (hpoly : a.earthquake_polygons = [])
    (hpd : pdata "" = none) :
    (∃ f fs, (convert_to_geojson (a :: rest) pdata).features = f :: fs ∧
      f.properties.identifier = "" ∧ f.geometry = none) ∧
    (∃ r ∈ insert_features (convert_to_geojson (a :: rest) pdata) table,
      r.identifier = "") := by
  have hfa : alertFeatures pdata a =
      [{ geometry := none,
         properties := { mkProps a with
           feature_type := "alert_no_geometry" } }] := by
    unfold alertFeatures
    rw [hpoly, hid]
    simp only [Option.getD_none]
    rw [hpd]
  have hfeat : (convert_to_geojson (a :: rest) pdata).features =
      { geometry := none,
        properties := { mkProps a with
          feature_type := "alert_no_geometry" } } ::
        rest.flatMap (alertFeatures pdata) := by
    simp only [convert_to_geojson, List.flatMap_cons, hfa]
    rfl
  constructor
  · refine ⟨_, _, hfeat, ?_, rfl⟩
    simp [mkProps, hid]
  · rw [insert_features, hfeat, List.foldl_cons]
    refine insert_foldl_preserves_key _ _ "" ?_
    have h0 := upsertRow_mem_key table
      (rowOfFeature { geometry := none,
                      properties := { mkProps a with
                                      feature_type := "alert_no_geometry" } })
    simpa [rowOfFeature, mkProps, hid] using h0

/-- Witness for C3: the concrete one-record batch from the
counterexample, run through the amended theorem. -/
theorem claim_C3_witness :
    ∃ r ∈ insert_features (convert_to_geojson [noIdAlert] fun _ => none) [],
      r.identifier = "" :=
  (claim_C3 noIdAlert [] (fun _ => none) [] rfl rfl rfl).2

/-- The seismic warning message of end-to-end scenario C (all three
markers present). -/
def c4msg : String :=
  "Earthquake of Magnitude: 5.2 occurred, Depth: 10 Km, Lat: 19.07 & Long: 72.88, Location: Mumbai"

/-- The seismic record's start-time string. -/
def c4est : String := "2026-02-01 10:34:17"

/-- The raw seismic record of scenario C, with no inline polygons. -/
def c4rec : EqRaw Unit :=
  { effective_start_time := some c4est, warning_message := some c4msg,
    depth := some "10", polygons := [] }

/-- C4 counterexample: normalizing and converting the scenario-C seismic
record yields exactly one feature, and its geometry is null — no point
geometry at (72.88, 19.07) is derived from the `Lat:`/`Long:` markers
anywhere in the pipeline, contrary to the claim. -/
theorem claim_C4_counterexample :
    ((convert_to_geojson
        (normalize_earthquake_alerts (some { alerts := [c4rec] }))
        fun _ => none).features.map fun f => f.geometry) = [none] := by
  decide

/-- C4 (amended): the scenario-C seismic record normalizes to an Alert
whose disaster type/message categorize as earthquake and whose
area description is exactly "Mumbai" (the text after the last
`Location:` marker, stripped) — but no point geometry is derived from the
`Lat:`/`Long:` markers: with no inline polygons the record's only feature
has null geometry. -/
theorem claim_C4 :
    ∃ a : RawAlert Unit,
      normalize_earthquake_alerts (some { alerts := [c4rec] }) = [a] ∧
      categorize_alert (a.disaster_type.getD "") (a.warning_message.getD "") =
        "earthquake" ∧
      a.area_description = some "Mumbai" ∧
      ((convert_to_geojson [a] fun _ => none).features.map
        fun f => f.geometry) = [none] := by
  refine ⟨normalizeOne c4rec, rfl, ?_, ?_, ?_⟩ <;> decide
